import Mathlib

/-
A shallow embedding of the remote-debugging connection manager found in
extension/content/firebug/remoting/debuggerClientModule.js.

The module drives the connect / list-tabs / attach-tab / attach-thread
sequence against a debugger server through a DebuggerClient, stores the
resulting handles on a per-tab context object, re-dispatches protocol
events to registered listeners, and optionally installs a packet-tracing
hook on the transport.

Modelling choices:
- The protocol operations are asynchronous callback-driven in the source;
  here each operation is embedded as a pure function that, given a model
  of how the server answers (structure Server), returns the updated
  context together with the full list of observable actions (protocol
  calls issued, events dispatched, log lines, thread resume) in the order
  in which the source performs them.
- Null / undefined JavaScript values are modelled with Option.
- Two places of the source read a variable that is not in scope
  (a JavaScript ReferenceError at run time): the attachTab branch taken
  when context.tabClient is already set reads a variable named response,
  and the onClosed transport hook reads a variable named packet.  The
  scope of each function is listed explicitly so that the absence of the
  name is checkable, and the fault is modelled as an Action.jsError
  (respectively an Except.error) produced instead of the intended call.
-/

namespace DebuggerClientModule

/-- Client-side handle for an attached tab actor.  The source stores the
actor id in the field named underscore-actor of the tab client object. -/
structure TabClient where
  actor : String
deriving DecidableEq, Repr

/-- Client-side handle for an attached thread actor. -/
structure ThreadClient where
  id : Nat
deriving DecidableEq, Repr

/-- One entry of the listTabs response: a tab actor id together with the
satellite actor ids (consoleActor and friends) advertised next to it.
Field access tab[actorName] of the source is TabEntry.getField below. -/
structure TabEntry where
  actor : String
  fields : List (String × String)
deriving DecidableEq, Repr

/-- Dynamic field access tab[actorName] on a tab entry of the listing. -/
def TabEntry.getField (tab : TabEntry) (name : String) : Option String :=
  if name = "actor" then some tab.actor else tab.fields.lookup name

/-- Shape of the response to a listTabs request. -/
structure ListTabsResponse where
  tabs : List TabEntry
  selected : Nat
deriving DecidableEq, Repr

/-- Per-tab context object populated by the module: tabClient and
activeThread handles plus the cached listTabs response. -/
structure Context where
  tabClient : Option TabClient
  activeThread : Option ThreadClient
  listTabsResponse : Option ListTabsResponse
deriving DecidableEq, Repr

/-- The state persisted across a page reload: exactly the two handles. -/
structure PersistedState where
  tabClient : Option TabClient
  activeThread : Option ThreadClient
deriving DecidableEq, Repr

/-- Response to an attachTab request: the callback of the source receives
a response carrying threadActor and, on success, a tab client handle. -/
structure AttachTabResult where
  threadActor : String
  tabClient : Option TabClient
deriving Repr

/-- Response to an attachThread request: the callback receives a response
carrying an error text and, on success, a thread client handle. -/
structure AttachThreadResult where
  error : String
  threadClient : Option ThreadClient
deriving Repr

/-- Model of the server side of the connection: what each protocol
request answers.  The source treats the server as an opaque collaborator
behind the DebuggerClient, so the model quantifies over it. -/
structure Server where
  listTabs : ListTabsResponse
  attachTab : String → AttachTabResult
  attachThread : String → AttachThreadResult

/-- Observable actions of the manager, in the order the source performs
them: protocol calls issued through the client, events dispatched to the
registered listeners, error log lines, the thread resume call, and a
JavaScript fault. -/
inductive Action where
  | callListTabs : Action
  | callAttachTab : String → Action
  | callAttachThread : String → Action
  | dispatch : String → Bool → Action
  | dispatchConnect : Action
  | logError : String → Action
  | resumeThread : Action
  | jsError : String → Action
deriving DecidableEq, Repr

/-- True exactly on the three protocol attach / listing calls. -/
def Action.isProtocolCall : Action → Bool
  | Action.callListTabs => true
  | Action.callAttachTab _ => true
  | Action.callAttachThread _ => true
  | _ => false

/-- Embeds attachThread: issue the attachThread protocol call; on a
response without thread client log an error and stop; on success store
the handle on the context, dispatch onThreadAttached (fresh) and resume
the thread.  The source log text contains an apostrophe which is omitted
here. -/
def attachThread (srv : Server) (context : Context) (threadActor : String) :
    Context × List Action :=
  let response := srv.attachThread threadActor
  match response.threadClient with
  | none =>
    (context,
      [Action.callAttachThread threadActor,
       Action.logError ("Couldnt attach to thread: " ++ response.error)])
  | some threadClient =>
    ({ context with activeThread := some threadClient },
      [Action.callAttachThread threadActor,
       Action.dispatch "onThreadAttached" false,
       Action.resumeThread])

/-- Names in scope inside the branch of attachTab that runs when
context.tabClient is already set: the two parameters, the hoisted local
self, and this.  No enclosing scope (function or module) binds a name
response, so the read of response.threadActor in that branch faults. -/
def attachTabGuardScope : List String :=
  ["context", "tabActor", "self", "this"]

/-- Embeds attachTab: when context.tabClient is already set the source
reads response.threadActor with response out of scope, a ReferenceError;
otherwise it issues the attachTab protocol call, logs and aborts when no
tab client is returned, and on success stores the handle, dispatches
onTabAttached (fresh) and proceeds to attachThread with the threadActor
of the response. -/
def attachTab (srv : Server) (context : Context) (tabActor : String) :
    Context × List Action :=
  match context.tabClient with
  | some _ =>
    if attachTabGuardScope.contains "response" then
      (context, [])
    else
      (context, [Action.jsError "ReferenceError: response is not defined"])
  | none =>
    let response := srv.attachTab tabActor
    match response.tabClient with
    | none =>
      (context,
        [Action.callAttachTab tabActor,
         Action.logError "ERROR: No tab client found!"])
    | some tabClient =>
      let context1 := { context with tabClient := some tabClient }
      let r := attachThread srv context1 response.threadActor
      (r.1,
        Action.callAttachTab tabActor ::
        Action.dispatch "onTabAttached" false :: r.2)

/-- Embeds attachCurrentTab: when the context already has both handles
(page just reloaded) dispatch the four refresh events and return without
any protocol call; otherwise issue listTabs, cache the response on the
context, select the server-indicated tab and proceed to attachTab.  When
the selected index is out of range the source reads tabGrip.actor on an
undefined tabGrip, a TypeError. -/
def attachCurrentTab (srv : Server) (context : Context) :
    Context × List Action :=
  if context.tabClient.isSome && context.activeThread.isSome then
    (context,
      [Action.dispatch "onThreadDetached" true,
       Action.dispatch "onTabDetached" true,
       Action.dispatch "onTabAttached" true,
       Action.dispatch "onThreadAttached" true])
  else
    let response := srv.listTabs
    let context1 := { context with listTabsResponse := some response }
    match response.tabs[response.selected]? with
    | none =>
      (context1,
        [Action.callListTabs, Action.jsError "TypeError: tabGrip is undefined"])
    | some tabGrip =>
      let r := attachTab srv context1 tabGrip.actor
      (r.1, Action.callListTabs :: r.2)

/-- Embeds the restore step of initContext: when a persistedState object
is present both handles are copied from it onto the context,
unconditionally, whatever the stored values are. -/
def restorePersisted (context : Context) (persistedState : Option PersistedState) :
    Context :=
  match persistedState with
  | some ps => { context with tabClient := ps.tabClient, activeThread := ps.activeThread }
  | none => context

/-- Embeds initContext: restore the handles from the persisted state when
one is given, then, when the client exists and is connected, run
attachCurrentTab on the context.  The connected flag models the source
condition this.client and this.client underscore-connected. -/
def initContext (srv : Server) (connected : Bool) (context : Context)
    (persistedState : Option PersistedState) : Context × List Action :=
  let context1 := restorePersisted context persistedState
  if connected then attachCurrentTab srv context1 else (context1, [])

/-- Embeds destroyContext: copy the two handles of the context into the
persisted state object, overwriting its previous fields. -/
def destroyContext (context : Context) (persistedState : PersistedState) :
    PersistedState :=
  { persistedState with
    tabClient := context.tabClient, activeThread := context.activeThread }

/-- Embeds the onConnect hook: dispatch the onConnect event (with the
client as payload) to the listeners, then attach the current context. -/
def onConnect (srv : Server) (currentContext : Context) :
    Context × List Action :=
  let r := attachCurrentTab srv currentContext
  (r.1, Action.dispatchConnect :: r.2)

/-- Loop body of getActorId: walk the cached tab entries and return the
requested field of the first entry whose actor id matches; fall through
to undefined when none matches. -/
def findTabField : List TabEntry → String → String → Option String
  | [], _, _ => none
  | tab :: tabs, currTabActorId, actorName =>
    if tab.actor = currTabActorId then tab.getField actorName
    else findTabField tabs currTabActorId actorName

/-- Embeds getActorId: with no cached listing the source returns
undefined; with a cached listing it reads the actor id of
context.tabClient, which faults with a TypeError when tabClient is null,
and otherwise returns the named field of the matching tab entry. -/
def getActorId (context : Context) (actorName : String) :
    Except String (Option String) :=
  match context.listTabsResponse with
  | none => Except.ok none
  | some resp =>
    match context.tabClient with
    | none => Except.error "TypeError: context.tabClient is null"
    | some tc => Except.ok (findTabField resp.tabs tc.actor actorName)

/-- An inbound packet on the transport: its type tag and opaque rest. -/
structure Packet where
  type : String
  payload : String
deriving DecidableEq, Repr

/-- Observable actions of the packet-tracing hook: log a received packet,
forward a packet to the packet handler of the client, and the call of the
onClosed handler of the client. -/
inductive HookAction where
  | logPacket : Packet → HookAction
  | forward : Packet → HookAction
  | clientOnClosed : HookAction
deriving DecidableEq, Repr

/-- Embeds the onPacket hook installed by hookPacketTransport: a packet
whose type is newGlobal makes the handler return at once, so it is
neither logged nor forwarded; every other packet is logged and then
forwarded to the packet handler of the client. -/
def hookOnPacket (packet : Packet) : List HookAction :=
  if packet.type = "newGlobal" then []
  else [HookAction.logPacket packet, HookAction.forward packet]

/-- Names in scope inside the onClosed hook installed by
hookPacketTransport: its parameter status, the hoisted locals self and
send, the parameter transport of the enclosing function, and this.  No
enclosing scope binds a name packet. -/
def onClosedScope : List String :=
  ["status", "self", "transport", "send", "this"]

/-- Embeds the onClosed hook: the source calls the onClosed handler of
the client with the variable packet, which is not in scope, so the
handler faults with a ReferenceError before the client is notified. -/
def hookOnClosed (status : String) : Except String (List HookAction) :=
  if onClosedScope.contains "packet" then
    Except.ok [HookAction.clientOnClosed]
  else
    Except.error "ReferenceError: packet is not defined"

/-! Concrete fixtures used by witnesses and counterexamples. -/

/-- A fresh context: no handle attached, no listing cached. -/
def freshContext : Context :=
  { tabClient := none, activeThread := none, listTabsResponse := none }

/-- A server on which every step of the attach sequence succeeds. -/
def srvOk : Server :=
  { listTabs :=
      { tabs := [{ actor := "tab1", fields := [("consoleActor", "console1")] }]
        selected := 0 }
    attachTab := fun a => { threadActor := "thread1", tabClient := some { actor := a } }
    attachThread := fun _ => { error := "", threadClient := some { id := 1 } } }

/-- A server that returns no client handle on either attach request. -/
def srvFail : Server :=
  { listTabs := { tabs := [{ actor := "tab1", fields := [] }], selected := 0 }
    attachTab := fun a => { threadActor := "thread1", tabClient := none }
    attachThread := fun _ => { error := "oops", threadClient := none } }

/-- A context whose handles are both present (page just reloaded). -/
def ctxFull : Context :=
  { tabClient := some { actor := "tab9" }, activeThread := some { id := 7 }
    listTabsResponse := none }

/-- A two-tab cached listing used by the getActorId theorems. -/
def respTwo : ListTabsResponse :=
  { tabs :=
      [{ actor := "tab1", fields := [("consoleActor", "console1")] },
       { actor := "tab2", fields := [("consoleActor", "console2")] }]
    selected := 1 }

/-! Theorems for the claims. -/

/-- C1 counterexample.  The claim says a packet of type newGlobal is
forwarded to the packet handler of the client; on the code the onPacket
hook returns before doing anything with such a packet, so its action
trace is empty and in particular contains no forward action. -/
theorem newGlobal_packet_not_forwarded :
    hookOnPacket { type := "newGlobal", payload := "g" } = [] := rfl

/-- C1 amended.  A packet of type newGlobal is neither logged nor
forwarded (the hook drops it); every packet of any other type is first
logged and then forwarded to the packet handler of the client, in that
order. -/
theorem hookOnPacket_drops_newGlobal_logs_then_forwards_rest (p : Packet) :
    (p.type = "newGlobal" → hookOnPacket p = []) ∧
    (p.type ≠ "newGlobal" →
      hookOnPacket p = [HookAction.logPacket p, HookAction.forward p]) := by
  constructor <;> intro h <;> simp [hookOnPacket, h]

/-- C1 witness: the amended theorem evaluated on a newGlobal packet and
on a paused packet. -/
theorem hookOnPacket_concrete_traces :
    hookOnPacket { type := "newGlobal", payload := "g" } = [] ∧
    hookOnPacket { type := "paused", payload := "q" } =
      [HookAction.logPacket { type := "paused", payload := "q" },
       HookAction.forward { type := "paused", payload := "q" }] :=
  ⟨(hookOnPacket_drops_newGlobal_logs_then_forwards_rest
      { type := "newGlobal", payload := "g" }).1 rfl,
   (hookOnPacket_drops_newGlobal_logs_then_forwards_rest
      { type := "paused", payload := "q" }).2 (by decide)⟩

/-- C2.  On a context whose tabClient is already set, attachTab does
issue no protocol call, but it does not complete without error: the
branch reads response.threadActor with no name response in scope, so it
faults with a ReferenceError and attachThread is never reached.  The
theorem evaluates the code at such a context. -/
theorem attachTab_reattach_branch_faults :
    attachTabGuardScope.contains "response" = false ∧
    attachTab srvOk
        { tabClient := some { actor := "tab1" }, activeThread := none
          listTabsResponse := none } "tab1" =
      ({ tabClient := some { actor := "tab1" }, activeThread := none
         listTabsResponse := none },
       [Action.jsError "ReferenceError: response is not defined"]) :=
  ⟨rfl, rfl⟩

/-- C9.  With any present persistedState object, the restore step of
initContext copies both fields of the persisted state onto the context
unconditionally; in particular a persisted state carrying no handles
leaves both context fields undefined, and when the client is not
connected this is exactly the net effect of initContext.  The guard of
the source tests only the presence of the persistedState object. -/
theorem initContext_overwrites_from_persistedState (ctx : Context)
    (ps : PersistedState) :
    (restorePersisted ctx (some ps)).tabClient = ps.tabClient ∧
    (restorePersisted ctx (some ps)).activeThread = ps.activeThread ∧
    (restorePersisted ctx (some { tabClient := none, activeThread := none })).tabClient
      = none ∧
    (restorePersisted ctx (some { tabClient := none, activeThread := none })).activeThread
      = none ∧
    (∀ srv : Server, initContext srv false ctx (some ps)
      = (restorePersisted ctx (some ps), [])) :=
  ⟨rfl, rfl, rfl, rfl, fun _ => rfl⟩

/-- C10.  For every close status, the onClosed hook installed by
hookPacketTransport reads a variable packet that no enclosing scope
binds, so it faults with a ReferenceError and the onClosed handler of
the client is never invoked with the status. -/
theorem hookOnClosed_always_faults (status : String) :
    hookOnClosed status = Except.error "ReferenceError: packet is not defined" :=
  rfl

/-- C3.  On a context with both handles present, attachCurrentTab is
exactly the four refresh dispatches, each flagged as a refresh (second
argument true), in the fixed order onThreadDetached, onTabDetached,
onTabAttached, onThreadAttached; the context is unchanged and the trace
contains no listTabs, attachTab or attachThread protocol call. -/
theorem attachCurrentTab_refresh_only_dispatches (srv : Server) (ctx : Context)
    (h1 : ctx.tabClient.isSome = true) (h2 : ctx.activeThread.isSome = true) :
    attachCurrentTab srv ctx =
      (ctx,
        [Action.dispatch "onThreadDetached" true,
         Action.dispatch "onTabDetached" true,
         Action.dispatch "onTabAttached" true,
         Action.dispatch "onThreadAttached" true]) ∧
    ((attachCurrentTab srv ctx).2.all fun a => !a.isProtocolCall) = true := by
  constructor <;> simp [attachCurrentTab, h1, h2, Action.isProtocolCall]

/-- C3 witness: the theorem evaluated on a context holding both handles
against the all-success server. -/
theorem attachCurrentTab_refresh_concrete :
    attachCurrentTab srvOk ctxFull =
      (ctxFull,
        [Action.dispatch "onThreadDetached" true,
         Action.dispatch "onTabDetached" true,
         Action.dispatch "onTabAttached" true,
         Action.dispatch "onThreadAttached" true]) ∧
    ((attachCurrentTab srvOk ctxFull).2.all fun a => !a.isProtocolCall) = true :=
  attachCurrentTab_refresh_only_dispatches srvOk ctxFull rfl rfl

/-- C4.  Saving a context that holds both handles with destroyContext and
then running initContext on a fresh context with that persisted state
restores tabClient and activeThread to exactly the saved references, and
the whole round trip issues no listTabs, attachTab or attachThread
protocol call, whether or not the client is connected. -/
theorem destroy_then_init_restores_handles (srv : Server) (connected : Bool)
    (ctx : Context) (ps : PersistedState) (tc : TabClient) (th : ThreadClient)
    (h1 : ctx.tabClient = some tc) (h2 : ctx.activeThread = some th) :
    (initContext srv connected freshContext (some (destroyContext ctx ps))).1.tabClient
      = some tc ∧
    (initContext srv connected freshContext (some (destroyContext ctx ps))).1.activeThread
      = some th ∧
    ((initContext srv connected freshContext (some (destroyContext ctx ps))).2.all
      fun a => !a.isProtocolCall) = true := by
  cases connected with
  | false =>
    refine ⟨?_, ?_, ?_⟩ <;>
      simp [initContext, restorePersisted, destroyContext, freshContext, h1, h2]
  | true =>
    refine ⟨?_, ?_, ?_⟩ <;>
      simp [initContext, restorePersisted, destroyContext, freshContext, h1, h2,
        attachCurrentTab, Action.isProtocolCall]

/-- C4 witness: the round trip evaluated on a concrete attached context,
with the client connected. -/
theorem destroy_then_init_restores_handles_concrete :
    (initContext srvOk true freshContext
        (some (destroyContext ctxFull { tabClient := none, activeThread := none }))).1.tabClient
      = some { actor := "tab9" } ∧
    (initContext srvOk true freshContext
        (some (destroyContext ctxFull { tabClient := none, activeThread := none }))).1.activeThread
      = some { id := 7 } ∧
    ((initContext srvOk true freshContext
        (some (destroyContext ctxFull { tabClient := none, activeThread := none }))).2.all
      fun a => !a.isProtocolCall) = true :=
  destroy_then_init_restores_handles srvOk true ctxFull
    { tabClient := none, activeThread := none }
    { actor := "tab9" } { id := 7 } rfl rfl

/-- C5.  When the attachTab response carries no tab client handle, the
callback logs an error and stops: the whole trace is the protocol call
plus the log line, so no event is dispatched and no further protocol
call is issued, and the context (in particular its tabClient field) is
unchanged; likewise for attachThread and the activeThread field.  The
embedding returns normally in both cases, matching the source, which
propagates nothing to the original caller. -/
theorem attach_failure_logs_and_aborts (srv : Server) (ctx : Context) (a : String) :
    (ctx.tabClient = none → (srv.attachTab a).tabClient = none →
      attachTab srv ctx a =
        (ctx, [Action.callAttachTab a, Action.logError "ERROR: No tab client found!"])) ∧
    ((srv.attachThread a).threadClient = none →
      attachThread srv ctx a =
        (ctx,
          [Action.callAttachThread a,
           Action.logError ("Couldnt attach to thread: " ++ (srv.attachThread a).error)])) := by
  constructor
  · intro h1 h2
    simp [attachTab, h1, h2]
  · intro h
    simp [attachThread, h]

/-- C5 witness: both failure branches evaluated against the failing
server on a fresh context. -/
theorem attach_failure_logs_and_aborts_concrete :
    attachTab srvFail freshContext "tab1" =
      (freshContext,
        [Action.callAttachTab "tab1", Action.logError "ERROR: No tab client found!"]) ∧
    attachThread srvFail freshContext "thread1" =
      (freshContext,
        [Action.callAttachThread "thread1",
         Action.logError ("Couldnt attach to thread: " ++ (srvFail.attachThread "thread1").error)]) :=
  ⟨(attach_failure_logs_and_aborts srvFail freshContext "tab1").1 rfl rfl,
   (attach_failure_logs_and_aborts srvFail freshContext "thread1").2 rfl⟩

/-- The loop of getActorId returns the requested field of the first tab
entry whose actor id matches, phrased through List.find?. -/
lemma findTabField_eq_find (tabs : List TabEntry) (id nm : String) :
    findTabField tabs id nm
      = (tabs.find? fun t => t.actor == id).bind fun t => t.getField nm := by
  induction tabs with
  | nil => rfl
  | cons t ts ih =>
    by_cases h : t.actor = id
    · simp [findTabField, h]
    · simp [findTabField, h, ih]

/-- C6 counterexample.  The claim says getActorId returns an absent value
in every case where no tab entry matches; on a context that caches a
listing but whose tabClient is unset (reachable after a failed attachTab)
the source reads the actor id of a null tabClient and faults with a
TypeError instead of returning. -/
theorem getActorId_faults_without_tabClient :
    getActorId
        { tabClient := none, activeThread := none, listTabsResponse := some respTwo }
        "consoleActor"
      = Except.error "TypeError: context.tabClient is null" := rfl

/-- C6 amended.  With no cached listing getActorId returns the absent
value; with a cached listing and tabClient set it returns the field named
actorName of the first tab entry whose actor id equals the actor id of
the tabClient (absent when no entry matches or the entry lacks the
field); with a cached listing but tabClient unset it faults with a
TypeError instead of returning. -/
theorem getActorId_characterization (ctx : Context) (nm : String) :
    (ctx.listTabsResponse = none → getActorId ctx nm = Except.ok none) ∧
    (∀ resp tc, ctx.listTabsResponse = some resp → ctx.tabClient = some tc →
      getActorId ctx nm
        = Except.ok ((resp.tabs.find? fun t => t.actor == tc.actor).bind
            fun t => t.getField nm)) ∧
    (∀ resp, ctx.listTabsResponse = some resp → ctx.tabClient = none →
      getActorId ctx nm = Except.error "TypeError: context.tabClient is null") := by
  refine ⟨?_, ?_, ?_⟩
  · intro h
    simp [getActorId, h]
  · intro resp tc h1 h2
    simp [getActorId, h1, h2, findTabField_eq_find]
  · intro resp h1 h2
    simp [getActorId, h1, h2]

/-- C6 witness: the lookup evaluated on the two-tab listing of the spec
example, with the tabClient bound to tab2. -/
theorem getActorId_concrete_lookup :
    getActorId
        { tabClient := some { actor := "tab2" }, activeThread := none
          listTabsResponse := some respTwo }
        "consoleActor"
      = Except.ok (some "console2") :=
  (getActorId_characterization
      { tabClient := some { actor := "tab2" }, activeThread := none
        listTabsResponse := some respTwo }
      "consoleActor").2.1 respTwo { actor := "tab2" } rfl rfl

/-- Counts the occurrences of the onConnect dispatch in an action trace. -/
def countDispatchConnect : List Action → Nat
  | [] => 0
  | a :: tr =>
    (if a = Action.dispatchConnect then 1 else 0) + countDispatchConnect tr

/-- The attachThread trace never dispatches onConnect. -/
lemma countDispatchConnect_attachThread (srv : Server) (ctx : Context) (a : String) :
    countDispatchConnect (attachThread srv ctx a).2 = 0 := by
  cases h : (srv.attachThread a).threadClient <;>
    simp [attachThread, h, countDispatchConnect]

/-- The attachTab trace never dispatches onConnect. -/
lemma countDispatchConnect_attachTab (srv : Server) (ctx : Context) (a : String) :
    countDispatchConnect (attachTab srv ctx a).2 = 0 := by
  cases hc : ctx.tabClient with
  | some tc => simp [attachTab, hc, countDispatchConnect, attachTabGuardScope]
  | none =>
    cases hr : (srv.attachTab a).tabClient with
    | none => simp [attachTab, hc, hr, countDispatchConnect]
    | some tc =>
      simp [attachTab, hc, hr, countDispatchConnect,
        countDispatchConnect_attachThread]

/-- The attachCurrentTab trace never dispatches onConnect. -/
lemma countDispatchConnect_attachCurrentTab (srv : Server) (ctx : Context) :
    countDispatchConnect (attachCurrentTab srv ctx).2 = 0 := by
  by_cases hb : (ctx.tabClient.isSome && ctx.activeThread.isSome) = true
  · simp [attachCurrentTab, hb, countDispatchConnect]
  · cases hg : srv.listTabs.tabs[srv.listTabs.selected]? with
    | none => simp [attachCurrentTab, hb, hg, countDispatchConnect]
    | some tg =>
      simp [attachCurrentTab, hb, hg, countDispatchConnect,
        countDispatchConnect_attachTab]

/-- C7.  The trace of the onConnect hook starts with the onConnect
dispatch (carrying the client as payload), contains that dispatch
exactly once, and every attachTab protocol call in the trace is preceded
by the dispatch: whenever the trace splits around an attachTab call, the
dispatch lies strictly before the call. -/
theorem onConnect_dispatch_before_attachTab (srv : Server) (ctx : Context) :
    (onConnect srv ctx).2.head? = some Action.dispatchConnect ∧
    countDispatchConnect (onConnect srv ctx).2 = 1 ∧
    (∀ l1 l2 a, (onConnect srv ctx).2 = l1 ++ Action.callAttachTab a :: l2 →
      Action.dispatchConnect ∈ l1) := by
  refine ⟨rfl, ?_, ?_⟩
  · simp [onConnect, countDispatchConnect, countDispatchConnect_attachCurrentTab]
  · intro l1 l2 a h
    cases l1 with
    | nil =>
      exfalso
      have h0 : (onConnect srv ctx).2.head? = some (Action.callAttachTab a) := by
        rw [h]
        rfl
      rw [show (onConnect srv ctx).2.head? = some Action.dispatchConnect from rfl] at h0
      simp at h0
    | cons b bs =>
      have hb : b = Action.dispatchConnect := by
        have h0 : (onConnect srv ctx).2.head? = some b := by
          rw [h]
          rfl
        rw [show (onConnect srv ctx).2.head? = some Action.dispatchConnect from rfl] at h0
        simp at h0
        exact h0.symm
      rw [hb]
      exact List.mem_cons_self _ _

/-- C7 witness: the ordering fact extracted from the theorem on the
all-success server starting from a fresh context, whose trace is the
dispatch, the listTabs call, the attachTab call and the rest of the
attach sequence. -/
theorem onConnect_dispatch_before_attachTab_concrete :
    Action.dispatchConnect ∈ [Action.dispatchConnect, Action.callListTabs] :=
  (onConnect_dispatch_before_attachTab srvOk freshContext).2.2
    [Action.dispatchConnect, Action.callListTabs]
    [Action.dispatch "onTabAttached" false, Action.callAttachThread "thread1",
     Action.dispatch "onThreadAttached" false, Action.resumeThread]
    "tab1" rfl

/-- True when an action trace contains the fresh onThreadAttached
dispatch, the event the success callback of attachThread emits exactly
when it stores the thread client on the context.  The trace containing
this dispatch is what the spec calls the thread-attach step completing
directly. -/
def hasFreshThreadAttached : List Action → Bool
  | [] => false
  | a :: tr =>
    if a = Action.dispatch "onThreadAttached" false then true
    else hasFreshThreadAttached tr

/-- After attachThread, the context holds a thread handle exactly when it
already held one or the run just completed a fresh thread attach. -/
lemma attachThread_activeThread (srv : Server) (ctx : Context) (a : String) :
    (attachThread srv ctx a).1.activeThread.isSome
      = (ctx.activeThread.isSome || hasFreshThreadAttached (attachThread srv ctx a).2) := by
  cases h : (srv.attachThread a).threadClient <;>
    simp [attachThread, h, hasFreshThreadAttached]

/-- After attachTab, the context holds a thread handle exactly when it
already held one or the run just completed a fresh thread attach. -/
lemma attachTab_activeThread (srv : Server) (ctx : Context) (a : String) :
    (attachTab srv ctx a).1.activeThread.isSome
      = (ctx.activeThread.isSome || hasFreshThreadAttached (attachTab srv ctx a).2) := by
  cases hc : ctx.tabClient with
  | some tc => simp [attachTab, hc, hasFreshThreadAttached, attachTabGuardScope]
  | none =>
    cases hr : (srv.attachTab a).tabClient with
    | none => simp [attachTab, hc, hr, hasFreshThreadAttached]
    | some tc =>
      have h := attachThread_activeThread srv
        { ctx with tabClient := some tc } (srv.attachTab a).threadActor
      simp [attachTab, hc, hr, hasFreshThreadAttached, h]

/-- After attachCurrentTab, the context holds a thread handle exactly
when it already held one or the run just completed a fresh thread
attach.  The refresh branch dispatches onThreadAttached only with the
refresh flag, which does not count as completing an attach. -/
lemma attachCurrentTab_activeThread (srv : Server) (ctx : Context) :
    (attachCurrentTab srv ctx).1.activeThread.isSome
      = (ctx.activeThread.isSome || hasFreshThreadAttached (attachCurrentTab srv ctx).2) := by
  by_cases hb : (ctx.tabClient.isSome && ctx.activeThread.isSome) = true
  · simp [attachCurrentTab, hb, hasFreshThreadAttached]
  · cases hg : srv.listTabs.tabs[srv.listTabs.selected]? with
    | none => simp [attachCurrentTab, hb, hg, hasFreshThreadAttached]
    | some tg =>
      have h := attachTab_activeThread srv
        { ctx with listTabsResponse := some srv.listTabs } tg.actor
      simp [attachCurrentTab, hb, hg, hasFreshThreadAttached, h]

/-- After initContext, the context holds a thread handle exactly when the
restore step produced one or the run just completed a fresh thread
attach. -/
lemma initContext_activeThread (srv : Server) (connected : Bool) (ctx : Context)
    (psOpt : Option PersistedState) :
    (initContext srv connected ctx psOpt).1.activeThread.isSome
      = ((restorePersisted ctx psOpt).activeThread.isSome
          || hasFreshThreadAttached (initContext srv connected ctx psOpt).2) := by
  cases connected with
  | false => simp [initContext, hasFreshThreadAttached]
  | true => simp [initContext, attachCurrentTab_activeThread]

/-- One operation of the manager on a session, as seen by a caller:
initialize a context (optionally reusing the saved persisted state, with
the client connected or not), save the context into the persisted state,
or run one of the three attach entry points. -/
inductive MOp where
  | opInit : Bool → Bool → MOp
  | opDestroy : MOp
  | opAttachCurrentTab : MOp
  | opAttachTab : String → MOp
  | opAttachThread : String → MOp
deriving DecidableEq, Repr

/-- A session world: the context, a ghost flag recording whether the
thread-attach step has completed for the session (directly via the
attachThread success callback, or by restoring a previously completed
attach from the persisted state), and the persisted slot written by
destroyContext, paired with the completion flag saved alongside it. -/
structure World where
  ctx : Context
  done : Bool
  saved : Option (PersistedState × Bool)
deriving Repr

/-- Runs one operation of the manager on the world.  The context part is
exactly the corresponding source function; the ghost done flag becomes
true when the trace of the operation completes a fresh thread attach,
and restoring a persisted state also restores the saved flag. -/
def stepWorld (srv : Server) (w : World) : MOp → World
  | MOp.opInit connected usePersisted =>
    let gsaved := if usePersisted then w.saved else none
    let r := initContext srv connected w.ctx (gsaved.map Prod.fst)
    { ctx := r.1
      done :=
        (match gsaved with
         | some g => g.2
         | none => w.done) || hasFreshThreadAttached r.2
      saved := w.saved }
  | MOp.opDestroy =>
    { w with
      saved := some
        (destroyContext w.ctx { tabClient := none, activeThread := none }, w.done) }
  | MOp.opAttachCurrentTab =>
    let r := attachCurrentTab srv w.ctx
    { w with ctx := r.1, done := w.done || hasFreshThreadAttached r.2 }
  | MOp.opAttachTab a =>
    let r := attachTab srv w.ctx a
    { w with ctx := r.1, done := w.done || hasFreshThreadAttached r.2 }
  | MOp.opAttachThread a =>
    let r := attachThread srv w.ctx a
    { w with ctx := r.1, done := w.done || hasFreshThreadAttached r.2 }

/-- The invariant of C8: the context holds a thread handle exactly when
the thread-attach step has completed for the session, and the persisted
slot, when written, relates its stored handle to the saved flag the same
way. -/
def WorldInv (w : World) : Prop :=
  w.ctx.activeThread.isSome = w.done ∧
  ∀ p d, w.saved = some (p, d) → p.activeThread.isSome = d

/-- Every single operation of the manager preserves the invariant. -/
lemma stepWorld_preserves (srv : Server) (w : World) (op : MOp)
    (h : WorldInv w) : WorldInv (stepWorld srv w op) := by
  obtain ⟨h1, h2⟩ := h
  cases op with
  | opInit connected usePersisted =>
    refine ⟨?_, ?_⟩
    · cases hup : usePersisted with
      | false =>
        simp [stepWorld, hup, initContext_activeThread, restorePersisted, h1]
      | true =>
        cases hs : w.saved with
        | none =>
          simp [stepWorld, hup, hs, initContext_activeThread, restorePersisted, h1]
        | some g =>
          have hg := h2 g.1 g.2 (by rw [hs])
          simp [stepWorld, hup, hs, initContext_activeThread, restorePersisted, hg]
    · intro p d hpd
      exact h2 p d hpd
  | opDestroy =>
    refine ⟨h1, ?_⟩
    · intro p d hpd
      simp [stepWorld, destroyContext] at hpd
      rw [← hpd.1, ← hpd.2]
      exact h1
  | opAttachCurrentTab =>
    refine ⟨?_, fun p d hpd => h2 p d hpd⟩
    simp [stepWorld, attachCurrentTab_activeThread, h1]
  | opAttachTab a =>
    refine ⟨?_, fun p d hpd => h2 p d hpd⟩
    simp [stepWorld, attachTab_activeThread, h1]
  | opAttachThread a =>
    refine ⟨?_, fun p d hpd => h2 p d hpd⟩
    simp [stepWorld, attachThread_activeThread, h1]

/-- The world at the start of a session: fresh context, no completed
attach, nothing persisted. -/
def initialWorld : World :=
  { ctx := freshContext, done := false, saved := none }

/-- Runs a list of manager operations from the start of a session. -/
def runWorld (srv : Server) (ops : List MOp) : World :=
  ops.foldl (stepWorld srv) initialWorld

/-- The invariant survives any run, starting anywhere it holds. -/
lemma foldl_stepWorld_preserves (srv : Server) (ops : List MOp) :
    ∀ w : World, WorldInv w → WorldInv (ops.foldl (stepWorld srv) w) := by
  induction ops with
  | nil => intro w h; exact h
  | cons op ops ih =>
    intro w h
    exact ih (stepWorld srv w op) (stepWorld_preserves srv w op h)

/-- C8.  Along every sequence of manager operations on a session, the
context holds an activeThread handle exactly when the thread-attach step
has completed for that session, either directly through the success
callback of attachThread (a fresh onThreadAttached dispatch in the
trace) or by restoring a previously completed attach from the persisted
state; and the persisted state saved by destroyContext always relates
its stored handle to the completion flag the same way. -/
theorem activeThread_iff_thread_attach_completed (srv : Server) (ops : List MOp) :
    (runWorld srv ops).ctx.activeThread.isSome = (runWorld srv ops).done ∧
    (∀ p d, (runWorld srv ops).saved = some (p, d) → p.activeThread.isSome = d) :=
  foldl_stepWorld_preserves srv ops initialWorld ⟨rfl, by simp [initialWorld]⟩

/-- C8 witness: a concrete run that attaches on the all-success server
and then saves the context, so both halves of the invariant are
evaluated on it, the second at the concretely persisted pair. -/
theorem activeThread_invariant_concrete_run :
    (runWorld srvOk [MOp.opAttachCurrentTab, MOp.opDestroy]).ctx.activeThread.isSome
      = (runWorld srvOk [MOp.opAttachCurrentTab, MOp.opDestroy]).done ∧
    ({ tabClient := some { actor := "tab1" }, activeThread := some { id := 1 } }
        : PersistedState).activeThread.isSome = true :=
  ⟨(activeThread_iff_thread_attach_completed srvOk
      [MOp.opAttachCurrentTab, MOp.opDestroy]).1,
   (activeThread_iff_thread_attach_completed srvOk
      [MOp.opAttachCurrentTab, MOp.opDestroy]).2
     { tabClient := some { actor := "tab1" }, activeThread := some { id := 1 } }
     true rfl⟩

end DebuggerClientModule
